import Mathlib

/-
  Verification of the libplacebo shader-builder protocol (shaders.h) and of
  the GLFW demo window state machine (demos/window_glfw.c).

  The shader-builder implementation file is not part of the available
  sources; only its public header `src/include/libplacebo/shaders.h` is.
  The builder state machine below is therefore modelled from the
  specification's description of the builder protocol, refined by the
  behavioural statements in the header's documentation comments (which are
  part of the sources and take precedence where they speak): the sticky
  `failed` flag, the signature-transition check, output-size immutability,
  name uniqueness, dynamic-constant redirection, the compute-capability
  gate, and finalization that latches the shader immutable.

  The GLFW window material (scroll accumulation and dropped-file queue) is
  translated directly from `demos/window_glfw.c`.
-/

set_option autoImplicit false

namespace Placebo

/-- Modelled from the spec: the signature enumeration `pl_shader_sig` of
shaders.h (NONE / COLOR / SAMPLER). -/
inductive Sig where
  | NONE
  | COLOR
  | SAMPLER
deriving DecidableEq, Repr

/-- Modelled from the spec: the capability descriptor (`pl_glsl_version`):
shading-language version plus compute-support flag. -/
structure GlslVersion where
  version : Nat
  compute : Bool
deriving DecidableEq, Repr

/-- Modelled from the spec: `pl_shader_params` — builder identifier, frame
index, capability descriptor and the dynamic-constants flag. -/
structure ShaderParams where
  id : Nat
  index : Nat
  glsl : GlslVersion
  dynamic_constants : Bool
deriving DecidableEq, Repr

/-- Modelled from the spec: the scalar type of a variable (`pl_var_type`,
declared in gpu.h which is not among the sources; kept abstract). -/
inductive VarType where
  | SINT
  | UINT
  | FLOAT
deriving DecidableEq, Repr

/-- Modelled from the spec: a variable description (`pl_var`): a name plus a
type/shape declaration. -/
structure PlVar where
  name : String
  type : VarType
deriving DecidableEq, Repr

/-- Modelled from the spec: a vertex attribute binding (`pl_shader_va`): an
attribute name plus the data for the four corner vertices. -/
structure ShaderVA where
  name : String
  data : Nat × Nat × Nat × Nat
deriving DecidableEq, Repr

/-- Modelled from the spec: a bound shader variable (`pl_shader_var`): the
variable description, its raw data, and the dynamic flag. -/
structure ShaderVar where
  var : PlVar
  data : Nat
  dynamic : Bool
deriving DecidableEq, Repr

/-- Modelled from the spec: a bound descriptor (`pl_shader_desc`): the
descriptor name plus memory qualifiers. -/
structure ShaderDesc where
  name : String
  memory : Nat
deriving DecidableEq, Repr

/-- Modelled from the spec: a compile-time constant (`pl_shader_const`): a
type, a name, raw data, and the compile-time-mandatory flag. -/
structure ShaderConst where
  type : VarType
  name : String
  data : Nat
  compile_time : Bool
deriving DecidableEq, Repr

/-- Modelled from the spec: the mutable shader builder (`struct pl_shader`).
Holds the creation parameters, the sticky failure flag, the mutability
latch cleared by finalization (per the header: a finalized shader "is no
longer mutable at this point"), the accumulated body, the current
input/output signatures, the optional declared output size, the four
resource manifests, the diagnostic step labels, and the compute state. -/
structure Builder where
  params : ShaderParams
  failed : Bool
  is_mutable : Bool
  body : List String
  input : Sig
  output : Sig
  output_size : Option (Int × Int)
  vertex_attribs : List ShaderVA
  vars : List ShaderVar
  descriptors : List ShaderDesc
  constants : List ShaderConst
  steps : List String
  is_compute : Bool
  group_size : Nat × Nat
  shmem : Nat
deriving DecidableEq, Repr

/-- Modelled from the spec: `pl_shader_alloc` — a new, blank, mutable
builder. -/
def pl_shader_alloc (p : ShaderParams) : Builder where
  params := p
  failed := false
  is_mutable := true
  body := []
  input := Sig.NONE
  output := Sig.NONE
  output_size := none
  vertex_attribs := []
  vars := []
  descriptors := []
  constants := []
  steps := []
  is_compute := false
  group_size := (0, 0)
  shmem := 0

/-- Modelled from the spec: the identifiers already bound within one
builder, across the vertex-attribute, variable, descriptor and constant
manifests. -/
def usedNames (b : Builder) : List String :=
  b.vertex_attribs.map (fun a => a.name) ++ b.vars.map (fun v => v.var.name)
    ++ b.descriptors.map (fun d => d.name) ++ b.constants.map (fun c => c.name)

/-- Modelled from the spec: marking a builder failed (the sticky poisoning
flag; every detected invariant violation lands here). -/
def shFail (b : Builder) : Builder := { b with failed := true }

/-- Modelled from the spec: append a code block with a signature
transition. A no-op on a failed builder; an error on a finalized builder;
otherwise the required input signature must match the current output
signature, else the builder is poisoned; on success the block is appended
and the current output signature becomes the declared new one. -/
def sh_append (b : Builder) (reqIn newOut : Sig) (code : String) : Builder :=
  if b.failed then b
  else if !b.is_mutable then shFail b
  else if reqIn = b.output then
    { b with body := b.body ++ [code]
             input := if b.body.isEmpty then reqIn else b.input
             output := newOut }
  else shFail b

/-- Modelled from the spec: declare a required output size. Idempotent when
the identical size is redeclared; poisoning when a different size was
already declared. -/
def sh_output_size (b : Builder) (w h : Int) : Builder :=
  if b.failed then b
  else if !b.is_mutable then shFail b
  else match b.output_size with
    | none => { b with output_size := some (w, h) }
    | some s => if s = (w, h) then b else shFail b

/-- Modelled from the spec: bind a vertex attribute; the name must be
unique within this builder. -/
def sh_va (b : Builder) (a : ShaderVA) : Builder :=
  if b.failed then b
  else if !b.is_mutable then shFail b
  else if a.name ∈ usedNames b then shFail b
  else { b with vertex_attribs := b.vertex_attribs ++ [a] }

/-- Modelled from the spec: bind a variable; the name must be unique within
this builder. -/
def sh_var (b : Builder) (v : ShaderVar) : Builder :=
  if b.failed then b
  else if !b.is_mutable then shFail b
  else if v.var.name ∈ usedNames b then shFail b
  else { b with vars := b.vars ++ [v] }

/-- Modelled from the spec: bind a descriptor; the name must be unique
within this builder. -/
def sh_desc (b : Builder) (d : ShaderDesc) : Builder :=
  if b.failed then b
  else if !b.is_mutable then shFail b
  else if d.name ∈ usedNames b then shFail b
  else { b with descriptors := b.descriptors ++ [d] }

/-- Modelled from the spec: bind a constant; the name must be unique within
this builder. With `dynamic_constants` set and the binding not marked
compile-time-mandatory, the constant is redirected into the variable
manifest as a dynamic variable; otherwise it lands in the constant
manifest. -/
def sh_const (b : Builder) (c : ShaderConst) : Builder :=
  if b.failed then b
  else if !b.is_mutable then shFail b
  else if c.name ∈ usedNames b then shFail b
  else if b.params.dynamic_constants && !c.compile_time then
    { b with vars := b.vars
        ++ [{ var := { name := c.name, type := c.type }, data := c.data, dynamic := true }] }
  else { b with constants := b.constants ++ [c] }

/-- Modelled from the spec: enter compute mode. Requires the capability
descriptor to report compute support, else the builder is poisoned. On
conflicting subsequent requests the shared-memory requirement is the
maximum of the requests, and differing work-group sizes poison the
builder. -/
def sh_compute (b : Builder) (gw gh sm : Nat) : Builder :=
  if b.failed then b
  else if !b.is_mutable then shFail b
  else if !b.params.glsl.compute then shFail b
  else if b.is_compute ∧ b.group_size ≠ (gw, gh) then shFail b
  else { b with is_compute := true, group_size := (gw, gh), shmem := max b.shmem sm }

/-- Modelled from the spec: record a human-readable step label (purely
diagnostic). -/
def sh_describe (b : Builder) (lbl : String) : Builder :=
  if b.failed then b
  else if !b.is_mutable then shFail b
  else { b with steps := b.steps ++ [lbl] }

/-- Modelled from the spec: `pl_shader_is_failed`. -/
def pl_shader_is_failed (b : Builder) : Bool := b.failed

/-- Modelled from the spec: `pl_shader_is_compute`. -/
def pl_shader_is_compute (b : Builder) : Bool := b.is_compute

/-- Modelled from the spec: `pl_shader_output_size` — `none` when the
builder has no output-size requirement (the C function returns false),
otherwise the stored width and height. -/
def pl_shader_output_size (b : Builder) : Option (Int × Int) := b.output_size

/-- Modelled from the spec: the finalized shader result (`pl_shader_res`):
a snapshot of the creation parameters, step labels, body text, generated
callable name, signatures, compute requirements and the four resource
manifests. -/
structure ShaderRes where
  params : ShaderParams
  steps : List String
  glsl : List String
  name : String
  input : Sig
  output : Sig
  compute_group_size : Nat × Nat
  compute_shmem : Nat
  vertex_attribs : List ShaderVA
  vars : List ShaderVar
  descriptors : List ShaderDesc
  constants : List ShaderConst
deriving DecidableEq, Repr

/-- Modelled from the spec: the pure projection from builder state to the
result snapshot used by finalization. -/
def mkResult (b : Builder) : ShaderRes where
  params := b.params
  steps := b.steps
  glsl := b.body
  name := "pl_shader_" ++ Nat.repr b.params.id
  input := b.input
  output := b.output
  compute_group_size := if b.is_compute then b.group_size else (0, 0)
  compute_shmem := if b.is_compute then b.shmem else 0
  vertex_attribs := b.vertex_attribs
  vars := b.vars
  descriptors := b.descriptors
  constants := b.constants

/-- Modelled from the spec: `pl_shader_finalize`. Returns no result on a
failed builder, otherwise the deterministic snapshot of the builder state;
per the header's documentation the shader "is no longer mutable at this
point", so the mutability latch is cleared. -/
def pl_shader_finalize (b : Builder) : Option ShaderRes × Builder :=
  (if b.failed then none else some (mkResult b), { b with is_mutable := false })

/-- Modelled from the spec: the alphabet of builder mutation calls, for
reasoning about arbitrary call sequences. -/
inductive ShOp where
  | append (reqIn newOut : Sig) (code : String)
  | outSize (w h : Int)
  | va (a : ShaderVA)
  | var (v : ShaderVar)
  | desc (d : ShaderDesc)
  | const (c : ShaderConst)
  | compute (gw gh sm : Nat)
  | describe (lbl : String)
deriving DecidableEq, Repr

/-- Modelled from the spec: dispatch one mutation call. -/
def applyOp (b : Builder) : ShOp → Builder
  | ShOp.append reqIn newOut code => sh_append b reqIn newOut code
  | ShOp.outSize w h => sh_output_size b w h
  | ShOp.va a => sh_va b a
  | ShOp.var v => sh_var b v
  | ShOp.desc d => sh_desc b d
  | ShOp.const c => sh_const b c
  | ShOp.compute gw gh sm => sh_compute b gw gh sm
  | ShOp.describe lbl => sh_describe b lbl

/-- Modelled from the spec: run a sequence of mutation calls. -/
def runOps (b : Builder) : List ShOp → Builder
  | [] => b
  | op :: rest => runOps (applyOp b op) rest

/-- The event-visible fields of `struct priv` in demos/window_glfw.c: the
scroll accumulators (`scroll_dx`, `scroll_dy`), the dropped-file queue
(`files`, with `files_num`/`files_size` absorbed into the list) and the
`file_seen` flag. Scroll amounts are modelled over the rationals. -/
structure GlfwPriv where
  scroll_dx : Rat
  scroll_dy : Rat
  files : List String
  file_seen : Bool
deriving DecidableEq, Repr

/-- `scroll_cb` of window_glfw.c: accumulate the scroll deltas. -/
def scroll_cb (p : GlfwPriv) (dx dy : Rat) : GlfwPriv :=
  { p with scroll_dx := p.scroll_dx + dx, scroll_dy := p.scroll_dy + dy }

/-- `drop_cb` of window_glfw.c: enqueue the dropped file paths, in order,
at the back of the queue (the success path, with no allocation failure). -/
def drop_cb (p : GlfwPriv) (fs : List String) : GlfwPriv :=
  { p with files := p.files ++ fs }

/-- `glfw_get_scroll` of window_glfw.c: report the accumulated scroll
deltas and clear both accumulators. -/
def glfw_get_scroll (p : GlfwPriv) : (Rat × Rat) × GlfwPriv :=
  ((p.scroll_dx, p.scroll_dy), { p with scroll_dx := 0, scroll_dy := 0 })

/-- `glfw_get_file` of window_glfw.c: if the head of the queue was already
seen, free it and shift the queue; then return the (new) head, if any,
marking it seen. -/
def glfw_get_file (p : GlfwPriv) : Option String × GlfwPriv :=
  let p1 := if p.file_seen then { p with files := p.files.drop 1, file_seen := false } else p
  match p1.files with
  | [] => (none, p1)
  | f :: _ => (some f, { p1 with file_seen := true })

/-- The dropped-file queue entries not yet returned to the caller: the
queue minus the head when that head has already been handed out. -/
def pendingFiles (p : GlfwPriv) : List String :=
  if p.file_seen then p.files.drop 1 else p.files

/-- The alphabet of window events relevant to the dropped-file queue: a
drop callback delivering a batch of paths, or a `glfw_get_file` call. -/
inductive WinOp where
  | drop (fs : List String)
  | getFile
deriving DecidableEq, Repr

/-- All paths delivered by drop callbacks in a window-event sequence, in
order. -/
def winDrops : List WinOp → List String
  | [] => []
  | WinOp.drop fs :: rest => fs ++ winDrops rest
  | WinOp.getFile :: rest => winDrops rest

/-- Run a window-event sequence, collecting the result of every
`glfw_get_file` call. -/
def runWin (p : GlfwPriv) : List WinOp → GlfwPriv × List (Option String)
  | [] => (p, [])
  | WinOp.drop fs :: rest => runWin (drop_cb p fs) rest
  | WinOp.getFile :: rest =>
    let res := glfw_get_file p
    let next := runWin res.2 rest
    (next.1, res.1 :: next.2)

/-! Helper lemmas about the builder state machine. -/

lemma applyOp_of_failed (b : Builder) (h : b.failed = true) (op : ShOp) :
    applyOp b op = b := by
  cases op <;>
    simp [applyOp, sh_append, sh_output_size, sh_va, sh_var, sh_desc, sh_const,
      sh_compute, sh_describe, h]

lemma runOps_of_failed (b : Builder) (ops : List ShOp) (h : b.failed = true) :
    runOps b ops = b := by
  induction ops with
  | nil => rfl
  | cons op rest ih => rw [runOps, applyOp_of_failed b h op]; exact ih

/-! Concrete states used by the witnesses. -/

/-- A sample parameter block: id 1, no compute support, no dynamic
constants. -/
def P0 : ShaderParams :=
  { id := 1, index := 0, glsl := { version := 450, compute := false },
    dynamic_constants := false }

/-- A fresh builder over `P0`. -/
def B0 : Builder := pl_shader_alloc P0

/-- A poisoned builder. -/
def BFailed : Builder := { B0 with failed := true }

/-- C1: once the `failed` flag is set, every mutation call is a no-op
leaving the builder state unchanged, the flag stays set across any further
call sequence, and finalization returns no result. -/
theorem C1_failed_sticky_noop (b : Builder) (h : b.failed = true) :
    (∀ op : ShOp, applyOp b op = b)
      ∧ (∀ ops : List ShOp, (runOps b ops).failed = true)
      ∧ (pl_shader_finalize b).1 = none := by
  refine ⟨applyOp_of_failed b h, fun ops => ?_, ?_⟩
  · rw [runOps_of_failed b ops h]; exact h
  · simp [pl_shader_finalize, h]

/-- C1, witnessed at a concrete poisoned builder. -/
theorem C1_failed_sticky_noop_witness :
    applyOp BFailed (ShOp.describe "deband") = BFailed
      ∧ (runOps BFailed [ShOp.append Sig.NONE Sig.COLOR "c0"]).failed = true
      ∧ (pl_shader_finalize BFailed).1 = none :=
  ⟨(C1_failed_sticky_noop BFailed rfl).1 _,
   (C1_failed_sticky_noop BFailed rfl).2.1 _,
   (C1_failed_sticky_noop BFailed rfl).2.2⟩

/-- C2: signature discipline. An append whose required input signature
differs from the builder's current output signature leaves the builder
failed (whatever its prior state); the failure persists across every later
call sequence regardless of its validity; and on a live, non-failed
builder a matching append appends the code block and makes the declared
new output signature current. -/
theorem C2_signature_discipline :
    (∀ (b : Builder) (ri no : Sig) (code : String), ri ≠ b.output →
        (sh_append b ri no code).failed = true)
      ∧ (∀ (b : Builder) (ops : List ShOp), b.failed = true →
        (runOps b ops).failed = true)
      ∧ (∀ (b : Builder) (ri no : Sig) (code : String),
        b.failed = false → b.is_mutable = true → ri = b.output →
          (sh_append b ri no code).body = b.body ++ [code]
            ∧ (sh_append b ri no code).output = no) := by
  refine ⟨fun b ri no code h => ?_, fun b ops h => ?_, fun b ri no code hf hm hs => ?_⟩
  · cases hb : b.failed <;> cases hm : b.is_mutable <;>
      simp [sh_append, shFail, hb, hm, h]
  · rw [runOps_of_failed b ops h]; exact h
  · constructor <;> simp [sh_append, shFail, hf, hm, hs]

/-- C2, witnessed: a mismatched first append (COLOR required while the
fresh builder's output is NONE) fails; the failure survives a later call;
a matching append extends the body and sets the output signature. -/
theorem C2_signature_discipline_witness :
    (sh_append B0 Sig.COLOR Sig.COLOR "tonemap").failed = true
      ∧ (runOps BFailed [ShOp.describe "ok"]).failed = true
      ∧ (sh_append B0 Sig.NONE Sig.COLOR "decode").body = B0.body ++ ["decode"]
      ∧ (sh_append B0 Sig.NONE Sig.COLOR "decode").output = Sig.COLOR :=
  ⟨C2_signature_discipline.1 B0 _ _ _ (by decide),
   C2_signature_discipline.2.1 BFailed _ rfl,
   (C2_signature_discipline.2.2 B0 _ _ _ rfl rfl rfl).1,
   (C2_signature_discipline.2.2 B0 _ _ _ rfl rfl rfl).2⟩

/-- C3: idempotent finalization. On a non-failed builder, finalize yields
a result (no `none`), and finalizing again — with no intervening mutation —
yields a content-equal result, both being the same deterministic
projection of the builder state. -/
theorem C3_finalize_idempotent (b : Builder) (h : b.failed = false) :
    (pl_shader_finalize b).1 = some (mkResult b)
      ∧ (pl_shader_finalize ((pl_shader_finalize b).2)).1 = (pl_shader_finalize b).1 := by
  constructor
  · simp [pl_shader_finalize, h]
  · simp [pl_shader_finalize, h, mkResult]

/-- C3, witnessed at a fresh builder. -/
theorem C3_finalize_idempotent_witness :
    (pl_shader_finalize B0).1 = some (mkResult B0)
      ∧ (pl_shader_finalize ((pl_shader_finalize B0).2)).1 = (pl_shader_finalize B0).1 :=
  C3_finalize_idempotent B0 rfl

/-- C4, refuted as stated: finalization does not leave the builder state
unchanged — already on a fresh builder the state after finalize differs
from the state before, because the mutability latch is cleared (the header
documents that a finalized shader "is no longer mutable"). -/
theorem C4_finalize_purity_counterexample :
    ¬ ((pl_shader_finalize B0).2 = B0) := by decide

/-- C4 as amended: finalization leaves every builder field unchanged
except that it clears the mutability latch; afterwards the builder remains
inspectable, but any further mutation call on the (non-failed) finalized
builder errors, marking it failed instead of modifying it. -/
theorem C4_finalize_latches_immutable (b : Builder) :
    (pl_shader_finalize b).2 = { b with is_mutable := false }
      ∧ (∀ op : ShOp, b.is_mutable = false → b.failed = false →
          applyOp b op = shFail b) := by
  refine ⟨rfl, fun op hm hf => ?_⟩
  cases op <;>
    simp [applyOp, sh_append, sh_output_size, sh_va, sh_var, sh_desc, sh_const,
      sh_compute, sh_describe, hm, hf]

/-- C4 (amended), witnessed at a concrete finalized builder. -/
theorem C4_finalize_latches_immutable_witness :
    (pl_shader_finalize ((pl_shader_finalize B0).2)).2
        = { (pl_shader_finalize B0).2 with is_mutable := false }
      ∧ applyOp ((pl_shader_finalize B0).2) (ShOp.describe "late")
        = shFail ((pl_shader_finalize B0).2) :=
  ⟨(C4_finalize_latches_immutable ((pl_shader_finalize B0).2)).1,
   (C4_finalize_latches_immutable ((pl_shader_finalize B0).2)).2 _ rfl rfl⟩

/-- C5: output-size immutability. On a live builder with no size declared
yet, declaring (w1,h1) and then a different (w2,h2) poisons the builder
while the stored size stays (w1,h1); redeclaring the identical size is a
non-failing no-op; and the output-size query returns `none` exactly on
builders with no declared size, otherwise the stored width and height. -/
theorem C5_output_size_immutable (b : Builder) (w1 h1 w2 h2 : Int)
    (hf : b.failed = false) (hm : b.is_mutable = true) (hs : b.output_size = none) :
    ((w1, h1) ≠ (w2, h2) →
        (sh_output_size (sh_output_size b w1 h1) w2 h2).failed = true
          ∧ (sh_output_size (sh_output_size b w1 h1) w2 h2).output_size = some (w1, h1))
      ∧ (sh_output_size (sh_output_size b w1 h1) w1 h1 = sh_output_size b w1 h1
          ∧ (sh_output_size (sh_output_size b w1 h1) w1 h1).failed = false)
      ∧ (∀ c : Builder, pl_shader_output_size c = c.output_size) := by
  have hb1 : sh_output_size b w1 h1 = { b with output_size := some (w1, h1) } := by
    simp [sh_output_size, hf, hm, hs]
  refine ⟨fun hne => ?_, ?_, fun c => rfl⟩
  · rw [hb1]
    constructor <;> simp [sh_output_size, shFail, hf, hm, hne]
  · rw [hb1]
    constructor <;> simp [sh_output_size, hf, hm]

/-- C5, witnessed: sizes (128,64) then (256,64) poison a fresh builder and
leave (128,64) stored; (128,64) twice stays clean. -/
theorem C5_output_size_immutable_witness :
    ((sh_output_size (sh_output_size B0 128 64) 256 64).failed = true
        ∧ (sh_output_size (sh_output_size B0 128 64) 256 64).output_size = some (128, 64))
      ∧ (sh_output_size (sh_output_size B0 128 64) 128 64 = sh_output_size B0 128 64
          ∧ (sh_output_size (sh_output_size B0 128 64) 128 64).failed = false)
      ∧ pl_shader_output_size B0 = B0.output_size :=
  ⟨(C5_output_size_immutable B0 128 64 256 64 rfl rfl rfl).1 (by decide),
   (C5_output_size_immutable B0 128 64 256 64 rfl rfl rfl).2.1,
   (C5_output_size_immutable B0 128 64 256 64 rfl rfl rfl).2.2 B0⟩

/-- C6: dynamic-constants redirection. On a live builder with
`dynamic_constants` set, binding a constant not marked compile-time puts
its name into the variable manifest of the finalized result and not into
its constant manifest; a constant marked compile-time lands in the
constant manifest of the finalized result regardless of the flag. -/
theorem C6_dynamic_constants_redirect (b : Builder) (c : ShaderConst)
    (hf : b.failed = false) (hm : b.is_mutable = true) (hn : c.name ∉ usedNames b) :
    (b.params.dynamic_constants = true → c.compile_time = false →
        (pl_shader_finalize (sh_const b c)).1 = some (mkResult (sh_const b c))
          ∧ c.name ∈ (mkResult (sh_const b c)).vars.map (fun v => v.var.name)
          ∧ c.name ∉ (mkResult (sh_const b c)).constants.map (fun k => k.name))
      ∧ (c.compile_time = true →
        (pl_shader_finalize (sh_const b c)).1 = some (mkResult (sh_const b c))
          ∧ c.name ∈ (mkResult (sh_const b c)).constants.map (fun k => k.name)) := by
  have hnc : c.name ∉ b.constants.map (fun k => k.name) := by
    intro hmem
    exact hn (by unfold usedNames; simp only [List.mem_append]; tauto)
  constructor
  · intro hd hct
    have hb' : sh_const b c
        = { b with vars := b.vars
              ++ [{ var := { name := c.name, type := c.type }, data := c.data,
                    dynamic := true }] } := by
      simp [sh_const, hf, hm, hn, hd, hct]
    rw [hb']
    refine ⟨by simp [pl_shader_finalize, hf], ?_, ?_⟩
    · simp [mkResult]
    · simpa [mkResult] using hnc
  · intro hct
    have hb' : sh_const b c = { b with constants := b.constants ++ [c] } := by
      simp [sh_const, hf, hm, hn, hct]
    rw [hb']
    refine ⟨by simp [pl_shader_finalize, hf], ?_⟩
    simp [mkResult]

/-- A parameter block with `dynamic_constants` set. -/
def PDyn : ShaderParams :=
  { id := 2, index := 0, glsl := { version := 450, compute := false },
    dynamic_constants := true }

/-- A fresh builder over `PDyn`. -/
def BDyn : Builder := pl_shader_alloc PDyn

/-- A constant binding not marked compile-time. -/
def CRun : ShaderConst :=
  { type := VarType.FLOAT, name := "gamma", data := 22, compile_time := false }

/-- A constant binding marked compile-time-mandatory. -/
def CMand : ShaderConst :=
  { type := VarType.UINT, name := "lut_size", data := 64, compile_time := true }

/-- C6, witnessed on a fresh dynamic-constants builder. -/
theorem C6_dynamic_constants_redirect_witness :
    ((pl_shader_finalize (sh_const BDyn CRun)).1 = some (mkResult (sh_const BDyn CRun))
        ∧ CRun.name ∈ (mkResult (sh_const BDyn CRun)).vars.map (fun v => v.var.name)
        ∧ CRun.name ∉ (mkResult (sh_const BDyn CRun)).constants.map (fun k => k.name))
      ∧ ((pl_shader_finalize (sh_const BDyn CMand)).1 = some (mkResult (sh_const BDyn CMand))
        ∧ CMand.name ∈ (mkResult (sh_const BDyn CMand)).constants.map (fun k => k.name)) :=
  ⟨(C6_dynamic_constants_redirect BDyn CRun rfl rfl (by decide)).1 rfl rfl,
   (C6_dynamic_constants_redirect BDyn CMand rfl rfl (by decide)).2 rfl⟩

lemma applyOp_params (b : Builder) (op : ShOp) : (applyOp b op).params = b.params := by
  cases op
  all_goals
    simp only [applyOp, sh_append, sh_output_size, sh_va, sh_var, sh_desc,
      sh_const, sh_compute, sh_describe]
  all_goals (repeat' split)
  all_goals rfl

lemma applyOp_is_compute (b : Builder) (op : ShOp)
    (hc : b.params.glsl.compute = false) (hi : b.is_compute = false) :
    (applyOp b op).is_compute = false := by
  cases op
  all_goals
    simp only [applyOp, sh_append, sh_output_size, sh_va, sh_var, sh_desc,
      sh_const, sh_compute, sh_describe]
  all_goals (repeat' split)
  all_goals simp_all [shFail]

lemma runOps_no_compute (ops : List ShOp) : ∀ b : Builder,
    b.params.glsl.compute = false → b.is_compute = false →
      (runOps b ops).is_compute = false := by
  induction ops with
  | nil => intro b _ hi; exact hi
  | cons op rest ih =>
    intro b hc hi
    rw [runOps]
    exact ih _ (by rw [applyOp_params]; exact hc) (applyOp_is_compute b op hc hi)

/-- C7: with a capability descriptor lacking compute support, the compute
query never returns true in any state reachable from a fresh builder, and
an enter-compute-mode call on such a builder leaves it failed, so that
finalization returns no result. -/
theorem C7_compute_capability_gate :
    (∀ (p : ShaderParams) (ops : List ShOp), p.glsl.compute = false →
        pl_shader_is_compute (runOps (pl_shader_alloc p) ops) = false)
      ∧ (∀ (b : Builder) (gw gh sm : Nat), b.params.glsl.compute = false →
        (sh_compute b gw gh sm).failed = true
          ∧ (pl_shader_finalize (sh_compute b gw gh sm)).1 = none) := by
  constructor
  · intro p ops hc
    exact runOps_no_compute ops (pl_shader_alloc p) hc rfl
  · intro b gw gh sm hc
    have hfail : (sh_compute b gw gh sm).failed = true := by
      cases hb : b.failed <;> cases hm : b.is_mutable <;>
        simp [sh_compute, shFail, hb, hm, hc]
    exact ⟨hfail, by simp [pl_shader_finalize, hfail]⟩

/-- C7, witnessed on the compute-less builder `B0`. -/
theorem C7_compute_capability_gate_witness :
    pl_shader_is_compute (runOps B0 [ShOp.compute 8 8 256, ShOp.describe "blur"]) = false
      ∧ (sh_compute B0 8 8 256).failed = true
      ∧ (pl_shader_finalize (sh_compute B0 8 8 256)).1 = none :=
  ⟨C7_compute_capability_gate.1 P0 _ rfl,
   (C7_compute_capability_gate.2 B0 8 8 256 rfl).1,
   (C7_compute_capability_gate.2 B0 8 8 256 rfl).2⟩

lemma name_mem_usedNames_var (b : Builder) (v : ShaderVar) :
    v.var.name ∈ usedNames { b with vars := b.vars ++ [v] } := by
  unfold usedNames; simp

lemma name_mem_usedNames_va (b : Builder) (a : ShaderVA) :
    a.name ∈ usedNames { b with vertex_attribs := b.vertex_attribs ++ [a] } := by
  unfold usedNames; simp

lemma name_mem_usedNames_desc (b : Builder) (d : ShaderDesc) :
    d.name ∈ usedNames { b with descriptors := b.descriptors ++ [d] } := by
  unfold usedNames; simp

lemma sh_var_failed_of_mem (b : Builder) (v : ShaderVar) (hb : b.failed = false)
    (hm : b.is_mutable = true) (hn : v.var.name ∈ usedNames b) :
    (sh_var b v).failed = true := by
  simp [sh_var, shFail, hb, hm, hn]

lemma sh_va_failed_of_mem (b : Builder) (a : ShaderVA) (hb : b.failed = false)
    (hm : b.is_mutable = true) (hn : a.name ∈ usedNames b) :
    (sh_va b a).failed = true := by
  simp [sh_va, shFail, hb, hm, hn]

lemma sh_desc_failed_of_mem (b : Builder) (d : ShaderDesc) (hb : b.failed = false)
    (hm : b.is_mutable = true) (hn : d.name ∈ usedNames b) :
    (sh_desc b d).failed = true := by
  simp [sh_desc, shFail, hb, hm, hn]

lemma sh_var_var_same_name_failed (b : Builder) (v1 v2 : ShaderVar)
    (he : v1.var.name = v2.var.name) : (sh_var (sh_var b v1) v2).failed = true := by
  by_cases hb : b.failed = true
  · simp [sh_var, hb]
  · have hb' : b.failed = false := by simpa using hb
    by_cases hm : b.is_mutable = true
    · by_cases hn : v1.var.name ∈ usedNames b
      · have h1 : sh_var b v1 = shFail b := by simp [sh_var, hb', hm, hn]
        rw [h1]; simp [sh_var, shFail]
      · have h1 : sh_var b v1 = { b with vars := b.vars ++ [v1] } := by
          simp [sh_var, hb', hm, hn]
        rw [h1]
        exact sh_var_failed_of_mem _ v2 hb' hm
          (by rw [← he]; exact name_mem_usedNames_var b v1)
    · have hm' : b.is_mutable = false := by simpa using hm
      have h1 : sh_var b v1 = shFail b := by simp [sh_var, hb', hm']
      rw [h1]; simp [sh_var, shFail]

lemma sh_va_same_name_failed (b : Builder) (a1 a2 : ShaderVA)
    (he : a1.name = a2.name) : (sh_va (sh_va b a1) a2).failed = true := by
  by_cases hb : b.failed = true
  · simp [sh_va, hb]
  · have hb' : b.failed = false := by simpa using hb
    by_cases hm : b.is_mutable = true
    · by_cases hn : a1.name ∈ usedNames b
      · have h1 : sh_va b a1 = shFail b := by simp [sh_va, hb', hm, hn]
        rw [h1]; simp [sh_va, shFail]
      · have h1 : sh_va b a1 = { b with vertex_attribs := b.vertex_attribs ++ [a1] } := by
          simp [sh_va, hb', hm, hn]
        rw [h1]
        exact sh_va_failed_of_mem _ a2 hb' hm
          (by rw [← he]; exact name_mem_usedNames_va b a1)
    · have hm' : b.is_mutable = false := by simpa using hm
      have h1 : sh_va b a1 = shFail b := by simp [sh_va, hb', hm']
      rw [h1]; simp [sh_va, shFail]

lemma sh_desc_same_name_failed (b : Builder) (d1 d2 : ShaderDesc)
    (he : d1.name = d2.name) : (sh_desc (sh_desc b d1) d2).failed = true := by
  by_cases hb : b.failed = true
  · simp [sh_desc, hb]
  · have hb' : b.failed = false := by simpa using hb
    by_cases hm : b.is_mutable = true
    · by_cases hn : d1.name ∈ usedNames b
      · have h1 : sh_desc b d1 = shFail b := by simp [sh_desc, hb', hm, hn]
        rw [h1]; simp [sh_desc, shFail]
      · have h1 : sh_desc b d1 = { b with descriptors := b.descriptors ++ [d1] } := by
          simp [sh_desc, hb', hm, hn]
        rw [h1]
        exact sh_desc_failed_of_mem _ d2 hb' hm
          (by rw [← he]; exact name_mem_usedNames_desc b d1)
    · have hm' : b.is_mutable = false := by simpa using hm
      have h1 : sh_desc b d1 = shFail b := by simp [sh_desc, hb', hm']
      rw [h1]; simp [sh_desc, shFail]

/-- C8: name uniqueness. Binding two variables (or two vertex attributes,
or two descriptors) with the same name within one builder leaves it
failed, whereas binding one name once in each of two independently
allocated builders fails in neither. -/
theorem C8_name_uniqueness :
    (∀ (b : Builder) (v1 v2 : ShaderVar), v1.var.name = v2.var.name →
        (sh_var (sh_var b v1) v2).failed = true)
      ∧ (∀ (b : Builder) (a1 a2 : ShaderVA), a1.name = a2.name →
        (sh_va (sh_va b a1) a2).failed = true)
      ∧ (∀ (b : Builder) (d1 d2 : ShaderDesc), d1.name = d2.name →
        (sh_desc (sh_desc b d1) d2).failed = true)
      ∧ (∀ (p1 p2 : ShaderParams) (v : ShaderVar),
        (sh_var (pl_shader_alloc p1) v).failed = false
          ∧ (sh_var (pl_shader_alloc p2) v).failed = false) := by
  refine ⟨sh_var_var_same_name_failed, sh_va_same_name_failed,
    sh_desc_same_name_failed, fun p1 p2 v => ?_⟩
  constructor <;> simp [sh_var, pl_shader_alloc, usedNames]

/-- A bound variable named "weight". -/
def VW1 : ShaderVar :=
  { var := { name := "weight", type := VarType.FLOAT }, data := 3, dynamic := false }

/-- A second bound variable with the same name "weight". -/
def VW2 : ShaderVar :=
  { var := { name := "weight", type := VarType.FLOAT }, data := 4, dynamic := true }

/-- A vertex attribute named "pos". -/
def AP1 : ShaderVA := { name := "pos", data := (0, 1, 2, 3) }

/-- A second vertex attribute with the same name "pos". -/
def AP2 : ShaderVA := { name := "pos", data := (4, 5, 6, 7) }

/-- A descriptor named "tex". -/
def DT1 : ShaderDesc := { name := "tex", memory := 0 }

/-- A second descriptor with the same name "tex". -/
def DT2 : ShaderDesc := { name := "tex", memory := 1 }

/-- C8, witnessed: duplicate names "weight"/"pos"/"tex" within one builder
fail; one "weight" in each of two separately allocated builders does not. -/
theorem C8_name_uniqueness_witness :
    (sh_var (sh_var B0 VW1) VW2).failed = true
      ∧ (sh_va (sh_va B0 AP1) AP2).failed = true
      ∧ (sh_desc (sh_desc B0 DT1) DT2).failed = true
      ∧ (sh_var (pl_shader_alloc P0) VW1).failed = false
      ∧ (sh_var (pl_shader_alloc PDyn) VW1).failed = false :=
  ⟨C8_name_uniqueness.1 B0 VW1 VW2 rfl,
   C8_name_uniqueness.2.1 B0 AP1 AP2 rfl,
   C8_name_uniqueness.2.2.1 B0 DT1 DT2 rfl,
   (C8_name_uniqueness.2.2.2 P0 PDyn VW1).1,
   (C8_name_uniqueness.2.2.2 P0 PDyn VW1).2⟩

lemma scroll_foldl (evs : List (Rat × Rat)) : ∀ s : GlfwPriv,
    (evs.foldl (fun t e => scroll_cb t e.1 e.2) s).scroll_dx
        = s.scroll_dx + (evs.map Prod.fst).sum
      ∧ (evs.foldl (fun t e => scroll_cb t e.1 e.2) s).scroll_dy
        = s.scroll_dy + (evs.map Prod.snd).sum := by
  induction evs with
  | nil => intro s; simp
  | cons e rest ih =>
    intro s
    simp only [List.foldl_cons, List.map_cons, List.sum_cons]
    constructor
    · rw [(ih (scroll_cb s e.1 e.2)).1]; simp [scroll_cb]; ring
    · rw [(ih (scroll_cb s e.1 e.2)).2]; simp [scroll_cb]; ring

/-- C9: `glfw_get_scroll` is read-and-clear. It zeroes both accumulators,
an immediately following call with no intervening scroll events returns
(0, 0), and after any batch of `scroll_cb` events following a call, the
next call returns exactly the deltas accumulated since. -/
theorem C9_scroll_read_and_clear (s : GlfwPriv) (evs : List (Rat × Rat)) :
    (glfw_get_scroll ((glfw_get_scroll s).2)).1 = (0, 0)
      ∧ (glfw_get_scroll s).2.scroll_dx = 0
      ∧ (glfw_get_scroll s).2.scroll_dy = 0
      ∧ (glfw_get_scroll (evs.foldl (fun t e => scroll_cb t e.1 e.2)
            ((glfw_get_scroll s).2))).1
          = ((evs.map Prod.fst).sum, (evs.map Prod.snd).sum) := by
  refine ⟨rfl, rfl, rfl, ?_⟩
  have h := scroll_foldl evs (glfw_get_scroll s).2
  simp only [glfw_get_scroll] at h ⊢
  rw [h.1, h.2]
  simp

lemma getFile_spec (s : GlfwPriv) (hinv : s.file_seen = true → s.files ≠ []) :
    (glfw_get_file s).1.toList ++ pendingFiles (glfw_get_file s).2 = pendingFiles s
      ∧ ((glfw_get_file s).2.file_seen = true → (glfw_get_file s).2.files ≠ []) := by
  cases hseen : s.file_seen
  · cases hfs : s.files with
    | nil => simp [glfw_get_file, pendingFiles, hseen, hfs]
    | cons f r => simp [glfw_get_file, pendingFiles, hseen, hfs]
  · cases hfs : s.files with
    | nil => exact absurd hfs (hinv hseen)
    | cons f0 t =>
      cases t with
      | nil => simp [glfw_get_file, pendingFiles, hseen, hfs]
      | cons f r => simp [glfw_get_file, pendingFiles, hseen, hfs]

lemma drop_cb_inv (s : GlfwPriv) (fs : List String)
    (hinv : s.file_seen = true → s.files ≠ []) :
    (drop_cb s fs).file_seen = true → (drop_cb s fs).files ≠ [] := by
  intro h
  have hne : s.files ≠ [] := hinv h
  cases hfs : s.files with
  | nil => exact absurd hfs hne
  | cons f t => simp [drop_cb, hfs]

lemma pending_drop_cb (s : GlfwPriv) (fs : List String)
    (hinv : s.file_seen = true → s.files ≠ []) :
    pendingFiles (drop_cb s fs) = pendingFiles s ++ fs := by
  cases hseen : s.file_seen
  · simp [pendingFiles, drop_cb, hseen]
  · cases hfs : s.files with
    | nil => exact absurd hfs (hinv hseen)
    | cons f t => simp [pendingFiles, drop_cb, hseen, hfs]

lemma runWin_fifo (ops : List WinOp) : ∀ s : GlfwPriv,
    (s.file_seen = true → s.files ≠ []) →
      ((runWin s ops).2.filterMap id) ++ pendingFiles (runWin s ops).1
        = pendingFiles s ++ winDrops ops := by
  induction ops with
  | nil => intro s _; simp [runWin, winDrops]
  | cons op rest ih =>
    cases op with
    | drop fs =>
      intro s hinv
      have hrec := ih (drop_cb s fs) (drop_cb_inv s fs hinv)
      calc ((runWin s (WinOp.drop fs :: rest)).2.filterMap id)
            ++ pendingFiles (runWin s (WinOp.drop fs :: rest)).1
          = ((runWin (drop_cb s fs) rest).2.filterMap id)
              ++ pendingFiles (runWin (drop_cb s fs) rest).1 := rfl
        _ = pendingFiles (drop_cb s fs) ++ winDrops rest := hrec
        _ = (pendingFiles s ++ fs) ++ winDrops rest := by
              rw [pending_drop_cb s fs hinv]
        _ = pendingFiles s ++ winDrops (WinOp.drop fs :: rest) := by
              simp [winDrops]
    | getFile =>
      intro s hinv
      have hg := getFile_spec s hinv
      have hrec := ih (glfw_get_file s).2 hg.2
      have hgoal : (runWin s (WinOp.getFile :: rest)).2
            = (glfw_get_file s).1 :: (runWin (glfw_get_file s).2 rest).2 := rfl
      have hst : (runWin s (WinOp.getFile :: rest)).1
            = (runWin (glfw_get_file s).2 rest).1 := rfl
      rw [hgoal, hst]
      cases hr : (glfw_get_file s).1 with
      | none =>
        rw [hr] at hg
        simp only [Option.toList, List.nil_append] at hg
        simp only [List.filterMap_cons, id, winDrops]
        rw [hrec, hg.1]
      | some f =>
        rw [hr] at hg
        simp only [Option.toList] at hg
        simp only [List.filterMap_cons, id, winDrops]
        rw [List.cons_append, hrec]
        rw [← hg.1]
        simp

/-- C10: the dropped-file queue is FIFO with one path per returned value.
Over any event sequence from a state satisfying the queue invariant
(`file_seen` implies a nonempty queue), the paths returned by
`glfw_get_file`, followed by the still-pending queue entries, are exactly
the previously pending entries followed by all dropped paths in drop
order; one call returns `none` exactly when the queue is empty after
removing a previously seen head; and when a head is pending it is
returned, kept at the front, and marked seen. -/
theorem C10_get_file_fifo :
    (∀ (ops : List WinOp) (s : GlfwPriv), (s.file_seen = true → s.files ≠ []) →
        ((runWin s ops).2.filterMap id) ++ pendingFiles (runWin s ops).1
          = pendingFiles s ++ winDrops ops)
      ∧ (∀ s : GlfwPriv, ((glfw_get_file s).1 = none ↔ pendingFiles s = []))
      ∧ (∀ (s : GlfwPriv) (f : String) (r : List String), pendingFiles s = f :: r →
        (glfw_get_file s).1 = some f
          ∧ (glfw_get_file s).2 = { s with files := f :: r, file_seen := true }) := by
  refine ⟨fun ops s hinv => runWin_fifo ops s hinv, fun s => ?_, fun s f r hp => ?_⟩
  · cases hseen : s.file_seen
    · cases hfs : s.files with
      | nil => simp [glfw_get_file, pendingFiles, hseen, hfs]
      | cons f t => simp [glfw_get_file, pendingFiles, hseen, hfs]
    · cases hfs : s.files with
      | nil => simp [glfw_get_file, pendingFiles, hseen, hfs]
      | cons f0 t =>
        cases t with
        | nil => simp [glfw_get_file, pendingFiles, hseen, hfs]
        | cons f r => simp [glfw_get_file, pendingFiles, hseen, hfs]
  · cases hseen : s.file_seen
    · have hfs : s.files = f :: r := by
        simpa [pendingFiles, hseen] using hp
      constructor
      · simp [glfw_get_file, hseen, hfs]
      · simp [glfw_get_file, hseen, hfs]
    · cases hfs : s.files with
      | nil => simp [pendingFiles, hseen, hfs] at hp
      | cons f0 t =>
        have ht : t = f :: r := by
          simpa [pendingFiles, hseen, hfs] using hp
        subst ht
        constructor
        · simp [glfw_get_file, hseen, hfs]
        · simp [glfw_get_file, hseen, hfs]

/-- The freshly created window state (`calloc` zeroes `struct priv`). -/
def W0 : GlfwPriv := { scroll_dx := 0, scroll_dy := 0, files := [], file_seen := false }

/-- A window state with two pending dropped files. -/
def W1 : GlfwPriv := { W0 with files := ["a.mkv", "b.mkv"] }

/-- A concrete event sequence: one two-file drop, then three get-file
calls. -/
def WOPS : List WinOp :=
  [WinOp.drop ["a.mkv", "b.mkv"], WinOp.getFile, WinOp.getFile, WinOp.getFile]

/-- C10, witnessed on a fresh window with a concrete drop/get sequence. -/
theorem C10_get_file_fifo_witness :
    ((runWin W0 WOPS).2.filterMap id) ++ pendingFiles (runWin W0 WOPS).1
        = pendingFiles W0 ++ winDrops WOPS
      ∧ ((glfw_get_file W0).1 = none ↔ pendingFiles W0 = [])
      ∧ (glfw_get_file W1).1 = some "a.mkv"
      ∧ (glfw_get_file W1).2 = { W1 with files := "a.mkv" :: ["b.mkv"], file_seen := true } :=
  ⟨C10_get_file_fifo.1 WOPS W0 (by decide),
   C10_get_file_fifo.2.1 W0,
   (C10_get_file_fifo.2.2 W1 "a.mkv" ["b.mkv"] rfl).1,
   (C10_get_file_fifo.2.2 W1 "a.mkv" ["b.mkv"] rfl).2⟩

end Placebo
